import Mathlib

/-
Verification development for the entrypoint of the cs224n-squad repository
(`code/main.py`).  The controller is embedded shallowly: each externally
visible action of `main` (file reads, checkpoint restores, inference passes,
the final JSON write) becomes an `Event`, and `main` becomes a pure function
from the run configuration and an abstract environment to the trace of events
it performs together with the exception it raises, if any.  Collaborators that
live outside this snapshot (`get_json_data`, `generate_answers`,
`generate_partial_answers`, `generate_ensemble_answers`, the TensorFlow
checkpoint machinery) are modelled through the environment or, where a claim
is about their behaviour, from the spec (marked `Modelled from the spec:`).
-/

/-- Python `os.path.join` as used in `main.py` (every second argument there is
a relative component; an empty first argument yields the second). -/
def joinPath (a b : String) : String := if a = "" then b else a ++ "/" ++ b

/-- The `tf.app.flags` run configuration defined in `main.py` (lines 43-82),
restricted to the flags the controller itself reads.  Field names are the flag
names from the source. -/
structure Flags where
  mode : String
  experiment_name : String
  train_dir : String
  glove_path : String
  data_dir : String
  ckpt_load_dir : String
  json_in_path : String
  json_out_path : String
  main_dir : String
  embedding_size : Nat
  max_word_size : Nat
  load_ema_checkpoint : Bool
  single_ensemble : String
deriving Repr, DecidableEq

/-- Default value of the `single_ensemble` flag (`main.py` line 67). -/
def single_ensemble_default : String := ""

/-- Default value of the `load_ema_checkpoint` flag (`main.py` line 65). -/
def load_ema_checkpoint_default : Bool := true

/-- Default value of the `json_out_path` flag (`main.py` line 81). -/
def json_out_path_default : String := "predictions.json"

/-- The world outside `main.py` that the controller observes: the interpreter
state checked on entry, the filesystem as queried by
`tf.train.get_checkpoint_state`, and the external collaborators.
`jsonData p` is the uuid sequence that `get_json_data p` yields;
`posTagLines` is `f.readlines()` of the pos-tag file; `answerOf d u` is the
answer text produced for example `u` by the model whose parameters were last
restored from checkpoint directory `d`. -/
structure Env where
  argvCount : Nat
  pyMajor : Nat
  mainDir : String
  ckptExists : String → Bool
  jsonData : String → List String
  posTagLines : List String
  answerOf : String → String → String

/-- The externally visible actions of `main.py`, in the order the source
performs them.  `ensureDir d` stands for `os.makedirs(d)` guarded by
`os.path.exists`; `buildTagMaps` carries the two lookup tables built in
official_eval mode; `writeOutput` carries the serialization parameters of the
final `json.dumps`/`io.open` call (`ensureAscii` is Python's `ensure_ascii`,
`encoding` the `io.open` encoding) and the dict written. -/
inductive Event where
  | getGlove (path : String) (dim : Nat)
  | buildModel
  | ensureDir (dir : String)
  | openLog (path : String)
  | writeFlagsJson (path : String)
  | lookFor (dir : String)
  | restoreEMA (dir : String)
  | restoreRaw (dir : String)
  | freshInit (dir : String)
  | reportParamCount
  | trainLoop
  | checkF1EM
  | readFile (path : String)
  | buildTagMaps (pos : List (String × Nat)) (ne : List (String × Nat))
  | readJson (path : String)
  | buildBatcher (vocabPath : String) (maxWordSize : Nat)
  | inference (ckptDir : String) (records : List (String × String))
  | aggregate (recordSets : List (List (String × String)))
  | writeOutput (path : String) (ensureAscii : Bool) (encoding : String)
      (dict : List (String × String))
deriving Repr, DecidableEq

/-- How a run of `main` terminates abnormally: a `raise Exception(msg)` or the
bare `assert` on `main.py` line 262. -/
inductive Err where
  | exception (msg : String)
  | assertionError
deriving Repr, DecidableEq

/-- One Python `d[k] = v` assignment on a dict represented as its entry list in
insertion order: an existing key keeps its position and takes the new value, a
fresh key is appended. -/
def pyInsert {β : Type} (d : List (String × β)) (k : String) (v : β) :
    List (String × β) :=
  if d.any (fun p => p.1 == k) then d.map (fun p => if p.1 == k then (k, v) else p)
  else d ++ [(k, v)]

/-- A Python dict built by assigning the pairs of `ps` in order into `{}`. -/
def pyDict {β : Type} (ps : List (String × β)) : List (String × β) :=
  ps.foldl (fun d p => pyInsert d p.1 p.2) []

/-- The `pos_tag_id_map` built in official_eval mode (`main.py` lines 217-221):
each line of `pos_tags.txt` with its final character stripped (`line[:-1]`),
assigned id `line-index + 1`. -/
def pos_tag_id_map (lines : List String) : List (String × Nat) :=
  pyDict (lines.enum.map (fun p => (p.2.dropRight 1, p.1 + 1)))

/-- The hardcoded NE tag list `all_NE_tag` (`main.py` line 224). -/
def all_NE_tag : List String :=
  ["B-FACILITY", "B-GPE", "B-GSP", "B-LOCATION", "B-ORGANIZATION", "B-PERSON",
   "I-FACILITY", "I-GPE", "I-GSP", "I-LOCATION", "I-ORGANIZATION", "I-PERSON", "O"]

/-- The `ne_tag_id_map` built in official_eval mode (`main.py` lines 223-226):
tag number `i` (0-based) gets id `i + 1`. -/
def ne_tag_id_map : List (String × Nat) :=
  pyDict (all_NE_tag.enum.map (fun p => (p.2, p.1 + 1)))

/-- `initialize_model` (`main.py` lines 89-119) as the events it performs and
the error it raises.  `ema` is `FLAGS.load_ema_checkpoint`, which the source
reads inside the function; `expect_exists` as in the source.  A found
checkpoint is restored through the EMA restorer or the plain saver according
to `ema`; a missing required checkpoint raises; a missing optional checkpoint
leads to fresh initialization plus the parameter-count report. -/
def initialize_model (env : Env) (ema : Bool) (train_dir : String)
    (expect_exists : Bool) : List Event × Option Err :=
  if env.ckptExists train_dir then
    ([Event.lookFor train_dir,
      if ema then Event.restoreEMA train_dir else Event.restoreRaw train_dir], none)
  else if expect_exists then
    ([Event.lookFor train_dir],
      some (Err.exception ("There is no saved checkpoint at " ++ train_dir)))
  else
    ([Event.lookFor train_dir, Event.freshInit train_dir,
      Event.reportParamCount], none)

/-- Modelled from the spec: `generate_partial_answers` lives in
`official_eval_helper.py`, which is not part of this snapshot.  Per §4.3 it
runs inference with the currently resident parameters and extracts one answer
record per example, keyed by uuid; `ckptDir` stands for the checkpoint whose
parameters are resident in the runtime. -/
def generate_partial_answers (env : Env) (ckptDir : String)
    (uuids : List String) : List (String × String) :=
  uuids.map (fun u => (u, env.answerOf ckptDir u))

/-- Modelled from the spec: `generate_answers` (`official_eval_helper.py`, not
in this snapshot) returns the uuid→answer dict emitted directly in single
mode — one extracted answer per example (§4.3). -/
def generate_answers (env : Env) (ckptDir : String)
    (uuids : List String) : List (String × String) :=
  pyDict (uuids.map (fun u => (u, env.answerOf ckptDir u)))

/-- Modelled from the spec: the voting rule of the Ensemble Aggregator (§4.4,
§8): majority vote over the candidate answers, ties broken in favour of the
candidate proposed by the lowest-indexed model.  The fold keeps the earliest
candidate whose multiplicity is maximal. -/
def majorityVote (cands : List String) : String :=
  match cands with
  | [] => ""
  | c :: _ =>
    cands.foldl (fun best x => if cands.count best < cands.count x then x else best) c

/-- Modelled from the spec: `generate_ensemble_answers`
(`official_eval_helper.py`, not in this snapshot).  Per §4.4 it receives the M
per-model record sets plus a freshly reloaded batch and produces one final
answer per uuid, gathering for each uuid the candidates in model order and
selecting by the documented voting rule; the result is a Python dict keyed by
uuid. -/
def generate_ensemble_answers (uuids : List String)
    (recordSets : List (List (String × String))) : List (String × String) :=
  pyDict (uuids.map
    (fun u => (u, majorityVote (recordSets.filterMap (fun s => s.lookup u)))))

/-- `num_base_models` (`main.py` line 231). -/
def num_base_models : Nat := 7

/-- The ensemble checkpoint directories (`main.py` line 232):
`ckpt_load_dir/ema_best_checkpoint_i` for `i` in `1..7`. -/
def checkpoint_dirs (flags : Flags) : List String :=
  (List.range' 1 num_base_models).map
    (fun i => joinPath flags.ckpt_load_dir ("ema_best_checkpoint_" ++ toString i))

/-- The per-base-model loop of ensemble evaluate mode (`main.py` lines
234-242): for each checkpoint directory in order, reload the JSON batch, build
a Batcher, restore the checkpoint (required) and run one inference pass.
Returns the trace, the first load error if any, and the per-model record sets
collected into `partial_answers`. -/
def ensemblePasses (env : Env) (flags : Flags) :
    List String → List Event × Option Err × List (List (String × String))
  | [] => ([], none, [])
  | dir :: rest =>
    let uuids := env.jsonData flags.json_in_path
    let pre := [Event.readJson flags.json_in_path,
                Event.buildBatcher (joinPath flags.data_dir "elmo_voca.txt")
                  flags.max_word_size]
    let r := initialize_model env flags.load_ema_checkpoint dir true
    match r.2 with
    | some e => (pre ++ r.1, some e, [])
    | none =>
      let recs := generate_partial_answers env dir uuids
      let tailRes := ensemblePasses env flags rest
      (pre ++ r.1 ++ [Event.inference dir recs] ++ tailRes.1,
       tailRes.2.1, recs :: tailRes.2.2)

/-- `EXPERIMENTS_DIR` (`main.py` line 39). -/
def EXPERIMENTS_DIR (env : Env) : String := joinPath env.mainDir "experiments"

/-- `DEFAULT_DATA_DIR` (`main.py` line 38). -/
def DEFAULT_DATA_DIR (env : Env) : String := joinPath env.mainDir "data"

/-- The value `FLAGS.train_dir` holds after the defaulting on `main.py` line
137 (`FLAGS.train_dir or os.path.join(EXPERIMENTS_DIR, FLAGS.experiment_name)`,
with Python's empty-string falsiness). -/
def effective_train_dir (env : Env) (flags : Flags) : String :=
  if flags.train_dir = "" then joinPath (EXPERIMENTS_DIR env) flags.experiment_name
  else flags.train_dir

/-- The value `FLAGS.glove_path` holds after the defaulting on `main.py` line
146. -/
def effective_glove_path (env : Env) (flags : Flags) : String :=
  if flags.glove_path = "" then
    joinPath (DEFAULT_DATA_DIR env)
      ("glove.42B." ++ toString flags.embedding_size ++ "d.txt")
  else flags.glove_path

namespace Code

/-- `main` (`main.py` lines 122-287) as the trace of events it performs and
the error it terminates with, if any.  The source's structure is kept: the
argv and Python-version checks, the experiment-name precondition and the
`train_dir` defaulting, then GloVe loading and `QAModel` construction, then
the dispatch on `FLAGS.mode` with the official_eval path checks, the two tag
tables, and the single/ensemble sub-modes. -/
def main (env : Env) (flags : Flags) : List Event × Option Err :=
  if env.argvCount ≠ 1 then
    ([], some (Err.exception "There is a problem with how you entered flags"))
  else if env.pyMajor ≠ 3 then
    ([], some (Err.exception "ERROR: You must use Python 3"))
  else if flags.experiment_name = "" ∧ flags.train_dir = "" ∧
      flags.mode ≠ "official_eval" then
    ([], some (Err.exception "You need to specify either --experiment_name or --train_dir"))
  else
    let train_dir := effective_train_dir env flags
    let bestmodel_dir := joinPath train_dir "best_checkpoint"
    let ema_bestmodel_dir := joinPath train_dir "ema_best_checkpoint"
    let headEvents := [Event.getGlove (effective_glove_path env flags)
        flags.embedding_size, Event.buildModel]
    if flags.mode = "train" then
      let initRes := initialize_model env flags.load_ema_checkpoint train_dir false
      (headEvents ++
        [Event.ensureDir train_dir, Event.openLog (joinPath train_dir "log.txt"),
         Event.writeFlagsJson (joinPath train_dir "flags.json"),
         Event.ensureDir bestmodel_dir, Event.ensureDir ema_bestmodel_dir] ++
        initRes.1 ++ (if initRes.2 = none then [Event.trainLoop] else []),
       initRes.2)
    else if flags.mode = "show_examples" then
      let dir := if flags.load_ema_checkpoint then ema_bestmodel_dir else bestmodel_dir
      let initRes := initialize_model env flags.load_ema_checkpoint dir true
      (headEvents ++ initRes.1 ++ (if initRes.2 = none then [Event.checkF1EM] else []),
       initRes.2)
    else if flags.mode = "official_eval" then
      if flags.json_in_path = "" then
        (headEvents,
         some (Err.exception "For official_eval mode, you need to specify --json_in_path"))
      else if flags.ckpt_load_dir = "" then
        (headEvents,
         some (Err.exception "For official_eval mode, you need to specify --ckpt_load_dir"))
      else
        let tagEvents := [Event.readFile (joinPath flags.main_dir "pos_tags.txt"),
                          Event.buildTagMaps (pos_tag_id_map env.posTagLines)
                            ne_tag_id_map]
        if flags.single_ensemble = "ensemble" then
          let passes := ensemblePasses env flags (checkpoint_dirs flags)
          match passes.2.1 with
          | some e => (headEvents ++ tagEvents ++ passes.1, some e)
          | none =>
            let uuids := env.jsonData flags.json_in_path
            (headEvents ++ tagEvents ++ passes.1 ++
              [Event.readJson flags.json_in_path,
               Event.buildBatcher (joinPath flags.data_dir "elmo_voca.txt")
                 flags.max_word_size,
               Event.aggregate passes.2.2,
               Event.writeOutput flags.json_out_path false "utf-8"
                 (generate_ensemble_answers uuids passes.2.2)], none)
        else if flags.single_ensemble = "single" then
          let checkpoint_dir := joinPath flags.ckpt_load_dir "ema_best_checkpoint_1"
          let uuids := env.jsonData flags.json_in_path
          let preEvents := [Event.buildBatcher (joinPath flags.data_dir "elmo_voca.txt")
              flags.max_word_size, Event.readJson flags.json_in_path]
          let initRes := initialize_model env flags.load_ema_checkpoint
            checkpoint_dir true
          match initRes.2 with
          | some e => (headEvents ++ tagEvents ++ preEvents ++ initRes.1, some e)
          | none =>
            (headEvents ++ tagEvents ++ preEvents ++ initRes.1 ++
              [Event.inference checkpoint_dir
                 (generate_partial_answers env checkpoint_dir uuids),
               Event.writeOutput flags.json_out_path false "utf-8"
                 (generate_answers env checkpoint_dir uuids)], none)
        else
          (headEvents ++ tagEvents, some Err.assertionError)
    else
      (headEvents,
       some (Err.exception ("Unexpected value of FLAGS.mode: " ++ flags.mode)))

end Code

/-- The keys of a dict, in order. -/
def pyKeys {β : Type} (d : List (String × β)) : List String := d.map Prod.fst

theorem pyKeys_pyInsert {β : Type} (d : List (String × β)) (k : String) (v : β) :
    pyKeys (pyInsert d k v) =
      if k ∈ pyKeys d then pyKeys d else pyKeys d ++ [k] := by
  by_cases h : k ∈ pyKeys d
  · have hany : (d.any fun p => p.1 == k) = true := by
      rw [List.any_eq_true]
      obtain ⟨p, hp, hpk⟩ := List.mem_map.mp h
      exact ⟨p, hp, beq_iff_eq.mpr hpk⟩
    rw [if_pos h]
    unfold pyInsert
    rw [hany]
    simp only [eq_self_iff_true, if_true, pyKeys, List.map_map]
    apply List.map_congr_left
    intro a _
    by_cases ha : a.1 == k
    · simp only [Function.comp_apply, ha, if_pos]
      exact (beq_iff_eq.mp ha).symm
    · simp only [Function.comp_apply, ha]
      rfl
  · have hany : (d.any fun p => p.1 == k) = false := by
      rw [List.any_eq_false]
      intro p hp hpk
      exact h (List.mem_map.mpr ⟨p, hp, beq_iff_eq.mp hpk⟩)
    rw [if_neg h]
    unfold pyInsert
    rw [hany]
    simp [pyKeys]

theorem pyKeys_pyInsert_nodup {β : Type} (d : List (String × β)) (k : String) (v : β)
    (h : (pyKeys d).Nodup) : (pyKeys (pyInsert d k v)).Nodup := by
  rw [pyKeys_pyInsert]
  by_cases hk : k ∈ pyKeys d
  · rwa [if_pos hk]
  · rw [if_neg hk, List.nodup_append]
    refine ⟨h, List.nodup_singleton k, ?_⟩
    intro a ha hb
    rw [List.mem_singleton] at hb
    exact hk (hb ▸ ha)

theorem mem_pyKeys_pyInsert {β : Type} (d : List (String × β)) (k : String) (v : β)
    (a : String) : a ∈ pyKeys (pyInsert d k v) ↔ a ∈ pyKeys d ∨ a = k := by
  rw [pyKeys_pyInsert]
  by_cases hk : k ∈ pyKeys d
  · rw [if_pos hk]
    constructor
    · exact Or.inl
    · rintro (h | rfl)
      · exact h
      · exact hk
  · rw [if_neg hk]
    simp

theorem pyKeys_foldl_nodup {β : Type} (ps : List (String × β)) :
    ∀ d : List (String × β), (pyKeys d).Nodup →
      (pyKeys (ps.foldl (fun d p => pyInsert d p.1 p.2) d)).Nodup := by
  induction ps with
  | nil => intro d hd; simpa using hd
  | cons p ps ih =>
    intro d hd
    rw [List.foldl_cons]
    exact ih _ (pyKeys_pyInsert_nodup d p.1 p.2 hd)

theorem mem_pyKeys_foldl {β : Type} (ps : List (String × β)) :
    ∀ (d : List (String × β)) (a : String),
      a ∈ pyKeys (ps.foldl (fun d p => pyInsert d p.1 p.2) d) ↔
        a ∈ pyKeys d ∨ a ∈ ps.map Prod.fst := by
  induction ps with
  | nil => intro d a; simp
  | cons p ps ih =>
    intro d a
    rw [List.foldl_cons, ih, mem_pyKeys_pyInsert]
    simp only [List.map_cons, List.mem_cons]
    tauto

/-- The keys of a Python dict are pairwise distinct. -/
theorem pyKeys_pyDict_nodup {β : Type} (ps : List (String × β)) :
    (pyKeys (pyDict ps)).Nodup :=
  pyKeys_foldl_nodup ps [] (by simp [pyKeys])

/-- The keys of a Python dict are exactly the keys assigned into it. -/
theorem mem_pyKeys_pyDict {β : Type} (ps : List (String × β)) (a : String) :
    a ∈ pyKeys (pyDict ps) ↔ a ∈ ps.map Prod.fst := by
  rw [pyDict, mem_pyKeys_foldl]
  simp [pyKeys]

theorem foldl_pyInsert_of_disjoint {β : Type} (ps : List (String × β)) :
    ∀ d : List (String × β), (ps.map Prod.fst).Nodup →
      (∀ a ∈ pyKeys d, a ∉ ps.map Prod.fst) →
      ps.foldl (fun d p => pyInsert d p.1 p.2) d = d ++ ps := by
  induction ps with
  | nil => intro d _ _; simp
  | cons p ps ih =>
    intro d hnd hdisj
    rw [List.map_cons, List.nodup_cons] at hnd
    rw [List.foldl_cons]
    have hany : (d.any fun q => q.1 == p.1) = false := by
      rw [List.any_eq_false]
      intro q hq hqk
      exact hdisj q.1 (List.mem_map.mpr ⟨q, hq, rfl⟩)
        (by rw [beq_iff_eq.mp hqk]; exact List.mem_cons_self _ _)
    have hins : pyInsert d p.1 p.2 = d ++ [p] := by
      unfold pyInsert
      rw [hany]
      simp
    rw [hins, ih (d ++ [p]) hnd.2]
    · simp
    · intro a ha
      rw [pyKeys, List.map_append] at ha
      rcases List.mem_append.mp ha with h | h
      · intro hmem
        exact hdisj a h (List.mem_cons_of_mem _ hmem)
      · simp only [List.map_cons, List.map_nil, List.mem_singleton] at h
        subst h
        exact hnd.1

/-- A Python dict built from pairwise distinct keys is the assignment list
itself. -/
theorem pyDict_eq_self_of_nodup {β : Type} (ps : List (String × β))
    (h : (ps.map Prod.fst).Nodup) : pyDict ps = ps := by
  rw [pyDict, foldl_pyInsert_of_disjoint ps [] h (by simp [pyKeys])]
  simp

/-- Looking up the key stored at position `i` of a dict with pairwise distinct
keys returns the value stored there. -/
theorem lookup_get_of_nodup {β : Type} (ps : List (String × β))
    (h : (ps.map Prod.fst).Nodup) (i : Nat) (hi : i < ps.length) :
    ps.lookup (ps.get ⟨i, hi⟩).1 = some (ps.get ⟨i, hi⟩).2 := by
  induction ps generalizing i with
  | nil => exact absurd hi (by simp)
  | cons p ps ih =>
    rw [List.map_cons, List.nodup_cons] at h
    cases i with
    | zero =>
      cases p with
      | mk k v =>
        have hbeq : (k == k) = true := beq_iff_eq.mpr rfl
        simp [List.lookup_cons, hbeq]
    | succ j =>
      have hj : j < ps.length := Nat.lt_of_succ_lt_succ hi
      have hmem : (ps.get ⟨j, hj⟩).1 ∈ List.map Prod.fst ps :=
        List.mem_map.mpr ⟨ps.get ⟨j, hj⟩, List.get_mem ps j hj, rfl⟩
      have hkey : ((ps.get ⟨j, hj⟩).1 == p.1) = false := by
        rw [beq_eq_false_iff_ne]
        intro hEq
        exact h.1 (hEq ▸ hmem)
      have hget : ((p :: ps).get ⟨j + 1, hi⟩) = ps.get ⟨j, hj⟩ := rfl
      cases p with
      | mk k v =>
        rw [hget, List.lookup_cons, hkey]
        exact ih h.2 j hj

/-- The events `main` performs before the mode dispatch: GloVe loading
(`main.py` line 149) and `QAModel` construction (line 160). -/
def mainHead (env : Env) (flags : Flags) : List Event :=
  [Event.getGlove (effective_glove_path env flags) flags.embedding_size,
   Event.buildModel]

/-- The events building the two official_eval lookup tables (`main.py` lines
216-226). -/
def tagTrace (env : Env) (flags : Flags) : List Event :=
  [Event.readFile (joinPath flags.main_dir "pos_tags.txt"),
   Event.buildTagMaps (pos_tag_id_map env.posTagLines) ne_tag_id_map]

/-- One successful base-model pass of the ensemble loop (`main.py` lines
235-242): fresh batch, fresh Batcher, required restore, one inference pass. -/
def passTrace (env : Env) (flags : Flags) (dir : String) : List Event :=
  [Event.readJson flags.json_in_path,
   Event.buildBatcher (joinPath flags.data_dir "elmo_voca.txt") flags.max_word_size,
   Event.lookFor dir,
   if flags.load_ema_checkpoint then Event.restoreEMA dir else Event.restoreRaw dir,
   Event.inference dir
     (generate_partial_answers env dir (env.jsonData flags.json_in_path))]

/-- The `partial_answers` list after a fully successful ensemble loop: one
record set per base model, in model order. -/
def ensembleRecordSets (env : Env) (flags : Flags) :
    List (List (String × String)) :=
  (checkpoint_dirs flags).map
    (fun dir => generate_partial_answers env dir (env.jsonData flags.json_in_path))

/-- The closing events of ensemble mode (`main.py` lines 249-258): fresh batch
and Batcher, the single aggregator call, the JSON write. -/
def finishTrace (env : Env) (flags : Flags) : List Event :=
  [Event.readJson flags.json_in_path,
   Event.buildBatcher (joinPath flags.data_dir "elmo_voca.txt") flags.max_word_size,
   Event.aggregate (ensembleRecordSets env flags),
   Event.writeOutput flags.json_out_path false "utf-8"
     (generate_ensemble_answers (env.jsonData flags.json_in_path)
       (ensembleRecordSets env flags))]

/-- If every checkpoint directory holds a checkpoint, the ensemble loop
performs exactly one pass per directory, in order, fails nowhere, and collects
one record set per base model. -/
theorem ensemblePasses_all_exist (env : Env) (flags : Flags)
    (dirs : List String) (h : ∀ d ∈ dirs, env.ckptExists d = true) :
    ensemblePasses env flags dirs =
      (dirs.flatMap (passTrace env flags), none,
       dirs.map (fun dir =>
         generate_partial_answers env dir (env.jsonData flags.json_in_path))) := by
  induction dirs with
  | nil => simp [ensemblePasses]
  | cons dir rest ih =>
    have hdir : env.ckptExists dir = true := h dir (List.mem_cons_self _ _)
    have hrest : ∀ d ∈ rest, env.ckptExists d = true :=
      fun d hd => h d (List.mem_cons_of_mem _ hd)
    rw [ensemblePasses, initialize_model, if_pos hdir]
    rw [ih hrest]
    simp [passTrace, List.flatMap_cons]

/-- In ensemble evaluate mode with both paths set and all seven checkpoints
present, `main` performs exactly: the head events, the tag-table build, one
pass per checkpoint directory in order, and the closing reload/aggregate/write
events; it raises nothing. -/
theorem main_ensemble_trace (env : Env) (flags : Flags)
    (h1 : env.argvCount = 1) (h2 : env.pyMajor = 3)
    (hm : flags.mode = "official_eval")
    (hj : flags.json_in_path ≠ "") (hc : flags.ckpt_load_dir ≠ "")
    (hs : flags.single_ensemble = "ensemble")
    (hx : ∀ d ∈ checkpoint_dirs flags, env.ckptExists d = true) :
    Code.main env flags =
      (mainHead env flags ++ tagTrace env flags ++
        (checkpoint_dirs flags).flatMap (passTrace env flags) ++
        finishTrace env flags, none) := by
  unfold Code.main
  rw [ensemblePasses_all_exist env flags (checkpoint_dirs flags) hx]
  simp [h1, h2, hm, hj, hc, hs, mainHead, tagTrace, finishTrace, ensembleRecordSets]

/-- The single-mode checkpoint directory `ckpt_load_dir/ema_best_checkpoint_1`
(`main.py` line 272). -/
def singleCkptDir (flags : Flags) : String :=
  joinPath flags.ckpt_load_dir "ema_best_checkpoint_1"

/-- The events of the single evaluate sub-mode after the tag tables (`main.py`
lines 264-283): Batcher, batch read, the one required restore, one inference
pass, the JSON write. -/
def singleTailTrace (env : Env) (flags : Flags) : List Event :=
  [Event.buildBatcher (joinPath flags.data_dir "elmo_voca.txt") flags.max_word_size,
   Event.readJson flags.json_in_path,
   Event.lookFor (singleCkptDir flags),
   if flags.load_ema_checkpoint then Event.restoreEMA (singleCkptDir flags)
     else Event.restoreRaw (singleCkptDir flags),
   Event.inference (singleCkptDir flags)
     (generate_partial_answers env (singleCkptDir flags)
       (env.jsonData flags.json_in_path)),
   Event.writeOutput flags.json_out_path false "utf-8"
     (generate_answers env (singleCkptDir flags) (env.jsonData flags.json_in_path))]

/-- In single evaluate mode with both paths set and the first checkpoint
present, `main` performs exactly the head events, the tag-table build and the
single-mode tail; it raises nothing. -/
theorem main_single_trace (env : Env) (flags : Flags)
    (h1 : env.argvCount = 1) (h2 : env.pyMajor = 3)
    (hm : flags.mode = "official_eval")
    (hj : flags.json_in_path ≠ "") (hc : flags.ckpt_load_dir ≠ "")
    (hs : flags.single_ensemble = "single")
    (hx : env.ckptExists (singleCkptDir flags) = true) :
    Code.main env flags =
      (mainHead env flags ++ tagTrace env flags ++ singleTailTrace env flags,
       none) := by
  unfold Code.main
  simp only [singleCkptDir] at hx
  simp [h1, h2, hm, hj, hc, hs, mainHead, tagTrace, singleTailTrace,
    singleCkptDir, hx, initialize_model]

/-- In official_eval mode with a missing required path, `main` stops right
after the head events with the corresponding configuration exception. -/
theorem main_eval_missing_path (env : Env) (flags : Flags)
    (h1 : env.argvCount = 1) (h2 : env.pyMajor = 3)
    (hm : flags.mode = "official_eval")
    (hp : flags.json_in_path = "" ∨ flags.ckpt_load_dir = "") :
    Code.main env flags =
      (mainHead env flags,
       some (Err.exception
         (if flags.json_in_path = "" then
            "For official_eval mode, you need to specify --json_in_path"
          else
            "For official_eval mode, you need to specify --ckpt_load_dir"))) := by
  unfold Code.main
  rcases hp with hp | hp
  · simp [h1, h2, hm, hp, mainHead]
  · by_cases hj : flags.json_in_path = ""
    · simp [h1, h2, hm, hj, mainHead]
    · simp [h1, h2, hm, hj, hp, mainHead]

/-- In official_eval mode with both paths set and a `single_ensemble` value
outside `{"single", "ensemble"}`, `main` aborts with the assertion failure of
line 262, after the head events and the tag-table build. -/
theorem main_eval_bad_single_ensemble (env : Env) (flags : Flags)
    (h1 : env.argvCount = 1) (h2 : env.pyMajor = 3)
    (hm : flags.mode = "official_eval")
    (hj : flags.json_in_path ≠ "") (hc : flags.ckpt_load_dir ≠ "")
    (hs1 : flags.single_ensemble ≠ "ensemble")
    (hs2 : flags.single_ensemble ≠ "single") :
    Code.main env flags =
      (mainHead env flags ++ tagTrace env flags, some Err.assertionError) := by
  unfold Code.main
  simp [h1, h2, hm, hj, hc, hs1, hs2, mainHead, tagTrace]

/-- Whether an event is a checkpoint-load attempt (every `initialize_model`
call starts with the `Looking for model at` probe). -/
def Event.isLoadAttempt : Event → Bool
  | Event.lookFor _ => true
  | _ => false

/-- Whether an event restores checkpoint parameters into the session. -/
def Event.isRestore : Event → Bool
  | Event.restoreEMA _ => true
  | Event.restoreRaw _ => true
  | _ => false

/-- Whether an event is a base-model inference pass. -/
def Event.isInference : Event → Bool
  | Event.inference _ _ => true
  | _ => false

/-- Whether an event is an Ensemble Aggregator invocation. -/
def Event.isAggregate : Event → Bool
  | Event.aggregate _ => true
  | _ => false

/-- A concrete environment for exercising the theorems: well-formed argv,
Python 3, every checkpoint directory populated, a two-example batch. -/
def envW : Env :=
  { argvCount := 1, pyMajor := 3, mainDir := ".",
    ckptExists := fun _ => true,
    jsonData := fun _ => ["q1", "q2"],
    posTagLines := ["NN\n", "VB\n"],
    answerOf := fun d u => d ++ ":" ++ u }

/-- A concrete environment in which no directory holds a checkpoint. -/
def envNoCkpt : Env := { envW with ckptExists := fun _ => false }

/-- A concrete ensemble official_eval configuration. -/
def flagsEval : Flags :=
  { mode := "official_eval", experiment_name := "", train_dir := "",
    glove_path := "", data_dir := "data", ckpt_load_dir := "ckpts",
    json_in_path := "in.json", json_out_path := "predictions.json",
    main_dir := ".", embedding_size := 300, max_word_size := 40,
    load_ema_checkpoint := true, single_ensemble := "ensemble" }

/-- The same configuration in the single evaluate sub-mode. -/
def flagsSingle : Flags := { flagsEval with single_ensemble := "single" }

/-- A concrete show_examples configuration with an experiment name. -/
def flagsShow : Flags :=
  { flagsEval with mode := "show_examples", experiment_name := "exp" }

/-- A concrete train configuration lacking both `experiment_name` and
`train_dir`. -/
def flagsTrainMissing : Flags := { flagsEval with mode := "train" }

/-- An official_eval configuration leaving `single_ensemble` at its default
empty string. -/
def flagsDefaultSE : Flags :=
  { flagsEval with single_ensemble := single_ensemble_default }

/-- C1 fails on the code as stated: with `json_in_path` empty the controller
does raise the configuration exception, but model construction has already
happened — `Event.buildModel` is in the trace at the moment the error is
raised, because `main.py` builds the GloVe matrix (line 149) and the QAModel
(line 160) before the official_eval path checks (lines 211-214). -/
theorem c1_counterexample :
    (Code.main envW { flagsEval with json_in_path := "" }).2 =
      some (Err.exception "For official_eval mode, you need to specify --json_in_path") ∧
    Event.buildModel ∈ (Code.main envW { flagsEval with json_in_path := "" }).1 := by
  decide

/-- C1 (amended): for every official_eval invocation in which `json_in_path`
or `ckpt_load_dir` is the empty string, the controller fails with the
corresponding configuration exception and no checkpoint load is attempted —
but GloVe loading and model construction have already taken place when the
error is raised. -/
theorem c1_amended_no_load_but_model_built (env : Env) (flags : Flags)
    (h1 : env.argvCount = 1) (h2 : env.pyMajor = 3)
    (hm : flags.mode = "official_eval")
    (hp : flags.json_in_path = "" ∨ flags.ckpt_load_dir = "") :
    (∃ msg, (Code.main env flags).2 = some (Err.exception msg) ∧
      (msg = "For official_eval mode, you need to specify --json_in_path" ∨
       msg = "For official_eval mode, you need to specify --ckpt_load_dir")) ∧
    (∀ e ∈ (Code.main env flags).1,
      Event.isLoadAttempt e = false ∧ Event.isRestore e = false) ∧
    Event.buildModel ∈ (Code.main env flags).1 := by
  rw [main_eval_missing_path env flags h1 h2 hm hp]
  refine ⟨⟨_, rfl, ?_⟩, ?_, ?_⟩
  · by_cases hq : flags.json_in_path = "" <;> simp [hq]
  · intro e he
    simp only [mainHead, List.mem_cons, List.mem_singleton, List.not_mem_nil] at he
    rcases he with rfl | he
    · exact ⟨rfl, rfl⟩
    · rcases he with rfl | he
      · exact ⟨rfl, rfl⟩
      · simp at he
  · simp [mainHead]

/-- Witness: `c1_amended_no_load_but_model_built` at a concrete configuration
with an empty `json_in_path`. -/
theorem c1_witness :
    (∃ msg, (Code.main envW { flagsEval with json_in_path := "" }).2 =
        some (Err.exception msg) ∧
      (msg = "For official_eval mode, you need to specify --json_in_path" ∨
       msg = "For official_eval mode, you need to specify --ckpt_load_dir")) ∧
    (∀ e ∈ (Code.main envW { flagsEval with json_in_path := "" }).1,
      Event.isLoadAttempt e = false ∧ Event.isRestore e = false) ∧
    Event.buildModel ∈ (Code.main envW { flagsEval with json_in_path := "" }).1 :=
  c1_amended_no_load_but_model_built envW { flagsEval with json_in_path := "" }
    rfl rfl rfl (Or.inl rfl)

/-- C2: in ensemble evaluate mode, `main` performs exactly seven base-model
passes, sequentially and in increasing index order over the directories
`ckpt_load_dir/ema_best_checkpoint_1 .. _7`; each pass reloads the batch
fresh, restores its checkpoint with a required load, and produces one record
set; only after all seven passes does the single aggregator call happen, fed
the full seven-element record-set list and a freshly reloaded batch.  The
trace equality exhibits this structure; the counts make the "exactly 7
passes" and "exactly one aggregation" parts explicit. -/
theorem c2_ensemble_seven_sequential_passes (env : Env) (flags : Flags)
    (h1 : env.argvCount = 1) (h2 : env.pyMajor = 3)
    (hm : flags.mode = "official_eval")
    (hj : flags.json_in_path ≠ "") (hc : flags.ckpt_load_dir ≠ "")
    (hs : flags.single_ensemble = "ensemble")
    (hx : ∀ d ∈ checkpoint_dirs flags, env.ckptExists d = true) :
    Code.main env flags =
      (mainHead env flags ++ tagTrace env flags ++
        (checkpoint_dirs flags).flatMap (passTrace env flags) ++
        finishTrace env flags, none) ∧
    checkpoint_dirs flags =
      (List.range' 1 7).map
        (fun i => joinPath flags.ckpt_load_dir ("ema_best_checkpoint_" ++ toString i)) ∧
    ((Code.main env flags).1.filter Event.isInference).length = 7 ∧
    ((Code.main env flags).1.filter Event.isAggregate).length = 1 ∧
    (ensembleRecordSets env flags).length = 7 := by
  have htr := main_ensemble_trace env flags h1 h2 hm hj hc hs hx
  have hdirs : checkpoint_dirs flags =
      (List.range' 1 7).map
        (fun i => joinPath flags.ckpt_load_dir ("ema_best_checkpoint_" ++ toString i)) := rfl
  have hrange : List.range' 1 7 = [1, 2, 3, 4, 5, 6, 7] := rfl
  refine ⟨htr, hdirs, ?_, ?_, ?_⟩
  · rw [htr]
    cases hema : flags.load_ema_checkpoint <;>
      simp [mainHead, tagTrace, finishTrace, passTrace, hdirs, hrange, hema,
        Event.isInference, Event.isAggregate, List.filter_append]
  · rw [htr]
    cases hema : flags.load_ema_checkpoint <;>
      simp [mainHead, tagTrace, finishTrace, passTrace, hdirs, hrange, hema,
        Event.isInference, Event.isAggregate, List.filter_append]
  · simp [ensembleRecordSets, hdirs, hrange]

/-- Witness: `c2_ensemble_seven_sequential_passes` at the concrete ensemble
configuration. -/
theorem c2_witness :
    Code.main envW flagsEval =
      (mainHead envW flagsEval ++ tagTrace envW flagsEval ++
        (checkpoint_dirs flagsEval).flatMap (passTrace envW flagsEval) ++
        finishTrace envW flagsEval, none) ∧
    checkpoint_dirs flagsEval =
      (List.range' 1 7).map
        (fun i => joinPath flagsEval.ckpt_load_dir ("ema_best_checkpoint_" ++ toString i)) ∧
    ((Code.main envW flagsEval).1.filter Event.isInference).length = 7 ∧
    ((Code.main envW flagsEval).1.filter Event.isAggregate).length = 1 ∧
    (ensembleRecordSets envW flagsEval).length = 7 :=
  c2_ensemble_seven_sequential_passes envW flagsEval rfl rfl rfl (by decide)
    (by decide) rfl (fun _ _ => rfl)

/-- C3: in ensemble evaluate mode, the aggregated output dict written at the
end contains exactly one entry for every uuid of the input batch — every batch
uuid appears among its keys, and the keys are pairwise distinct — regardless
of how the models' answers relate (the aggregator is modelled from the spec,
as `official_eval_helper.py` is outside this snapshot). -/
theorem c3_ensemble_totality (env : Env) (flags : Flags)
    (h1 : env.argvCount = 1) (h2 : env.pyMajor = 3)
    (hm : flags.mode = "official_eval")
    (hj : flags.json_in_path ≠ "") (hc : flags.ckpt_load_dir ≠ "")
    (hs : flags.single_ensemble = "ensemble")
    (hx : ∀ d ∈ checkpoint_dirs flags, env.ckptExists d = true) :
    Event.writeOutput flags.json_out_path false "utf-8"
        (generate_ensemble_answers (env.jsonData flags.json_in_path)
          (ensembleRecordSets env flags)) ∈ (Code.main env flags).1 ∧
    (∀ u, u ∈ env.jsonData flags.json_in_path ↔
        u ∈ pyKeys (generate_ensemble_answers (env.jsonData flags.json_in_path)
          (ensembleRecordSets env flags))) ∧
    (pyKeys (generate_ensemble_answers (env.jsonData flags.json_in_path)
      (ensembleRecordSets env flags))).Nodup := by
  have htr := main_ensemble_trace env flags h1 h2 hm hj hc hs hx
  refine ⟨?_, ?_, ?_⟩
  · rw [htr]
    simp [finishTrace]
  · intro u
    rw [generate_ensemble_answers, mem_pyKeys_pyDict]
    simp
  · exact pyKeys_pyDict_nodup _

/-- Witness: `c3_ensemble_totality` at the concrete ensemble configuration. -/
theorem c3_witness :
    Event.writeOutput flagsEval.json_out_path false "utf-8"
        (generate_ensemble_answers (envW.jsonData flagsEval.json_in_path)
          (ensembleRecordSets envW flagsEval)) ∈ (Code.main envW flagsEval).1 ∧
    (∀ u, u ∈ envW.jsonData flagsEval.json_in_path ↔
        u ∈ pyKeys (generate_ensemble_answers (envW.jsonData flagsEval.json_in_path)
          (ensembleRecordSets envW flagsEval))) ∧
    (pyKeys (generate_ensemble_answers (envW.jsonData flagsEval.json_in_path)
      (ensembleRecordSets envW flagsEval))).Nodup :=
  c3_ensemble_totality envW flagsEval rfl rfl rfl (by decide) (by decide) rfl
    (fun _ _ => rfl)

/-- C4: in the single evaluate sub-mode, exactly one checkpoint is loaded —
the required one in `ckpt_load_dir/ema_best_checkpoint_1` — inference runs
once over the whole batch producing one record per example, no aggregation
happens, and the resulting uuid→answer dict is written directly as the final
output. -/
theorem c4_single_mode_direct_emission (env : Env) (flags : Flags)
    (h1 : env.argvCount = 1) (h2 : env.pyMajor = 3)
    (hm : flags.mode = "official_eval")
    (hj : flags.json_in_path ≠ "") (hc : flags.ckpt_load_dir ≠ "")
    (hs : flags.single_ensemble = "single")
    (hx : env.ckptExists (singleCkptDir flags) = true) :
    Code.main env flags =
      (mainHead env flags ++ tagTrace env flags ++ singleTailTrace env flags,
       none) ∧
    (Code.main env flags).1.filter Event.isLoadAttempt =
      [Event.lookFor (singleCkptDir flags)] ∧
    ((Code.main env flags).1.filter Event.isRestore).length = 1 ∧
    (Code.main env flags).1.filter Event.isAggregate = [] ∧
    Event.inference (singleCkptDir flags)
        (generate_partial_answers env (singleCkptDir flags)
          (env.jsonData flags.json_in_path)) ∈ (Code.main env flags).1 ∧
    Event.writeOutput flags.json_out_path false "utf-8"
        (generate_answers env (singleCkptDir flags)
          (env.jsonData flags.json_in_path)) ∈ (Code.main env flags).1 := by
  have htr := main_single_trace env flags h1 h2 hm hj hc hs hx
  refine ⟨htr, ?_, ?_, ?_, ?_, ?_⟩ <;> rw [htr] <;>
    cases hema : flags.load_ema_checkpoint <;>
      simp [mainHead, tagTrace, singleTailTrace, hema, Event.isLoadAttempt,
        Event.isRestore, Event.isAggregate, List.filter_append]

/-- Witness: `c4_single_mode_direct_emission` at the concrete single-mode
configuration. -/
theorem c4_witness :
    Code.main envW flagsSingle =
      (mainHead envW flagsSingle ++ tagTrace envW flagsSingle ++
        singleTailTrace envW flagsSingle, none) ∧
    (Code.main envW flagsSingle).1.filter Event.isLoadAttempt =
      [Event.lookFor (singleCkptDir flagsSingle)] ∧
    ((Code.main envW flagsSingle).1.filter Event.isRestore).length = 1 ∧
    (Code.main envW flagsSingle).1.filter Event.isAggregate = [] ∧
    Event.inference (singleCkptDir flagsSingle)
        (generate_partial_answers envW (singleCkptDir flagsSingle)
          (envW.jsonData flagsSingle.json_in_path)) ∈ (Code.main envW flagsSingle).1 ∧
    Event.writeOutput flagsSingle.json_out_path false "utf-8"
        (generate_answers envW (singleCkptDir flagsSingle)
          (envW.jsonData flagsSingle.json_in_path)) ∈ (Code.main envW flagsSingle).1 :=
  c4_single_mode_direct_emission envW flagsSingle rfl rfl rfl (by decide)
    (by decide) rfl rfl

/-- C5: when no checkpoint is found in the given directory, a required load
(`expect_exists = true`) fails with the exception whose message names the
searched directory, and a non-required load instead initializes fresh
parameters and reports the parameter count, raising nothing. -/
theorem c5_missing_checkpoint_behaviour (env : Env) (ema : Bool) (dir : String)
    (h : env.ckptExists dir = false) :
    initialize_model env ema dir true =
      ([Event.lookFor dir],
       some (Err.exception ("There is no saved checkpoint at " ++ dir))) ∧
    initialize_model env ema dir false =
      ([Event.lookFor dir, Event.freshInit dir, Event.reportParamCount], none) := by
  constructor <;> simp [initialize_model, h]

/-- Witness: `c5_missing_checkpoint_behaviour` in the checkpoint-free
environment. -/
theorem c5_witness :
    initialize_model envNoCkpt true "ckpts/ema_best_checkpoint_1" true =
      ([Event.lookFor "ckpts/ema_best_checkpoint_1"],
       some (Err.exception
         ("There is no saved checkpoint at " ++ "ckpts/ema_best_checkpoint_1"))) ∧
    initialize_model envNoCkpt true "ckpts/ema_best_checkpoint_1" false =
      ([Event.lookFor "ckpts/ema_best_checkpoint_1",
        Event.freshInit "ckpts/ema_best_checkpoint_1",
        Event.reportParamCount], none) :=
  c5_missing_checkpoint_behaviour envNoCkpt true "ckpts/ema_best_checkpoint_1" rfl

/-- C6: the raw/EMA selection is the single `load_ema_checkpoint` switch,
applied uniformly: at every load site where a checkpoint exists, the EMA
shadow variables are restored when the switch is on and the raw weights when
it is off (for either value of `expect_exists`); and in show_examples mode,
the same switch selects the `ema_best_checkpoint` versus `best_checkpoint`
directory that `main` probes. -/
theorem c6_ema_switch_uniform (env : Env) (flags : Flags) (dir : String)
    (hex : env.ckptExists dir = true)
    (h1 : env.argvCount = 1) (h2 : env.pyMajor = 3)
    (hm : flags.mode = "show_examples")
    (hn : ¬(flags.experiment_name = "" ∧ flags.train_dir = "")) :
    (∀ expect_exists : Bool,
      initialize_model env flags.load_ema_checkpoint dir expect_exists =
        ([Event.lookFor dir,
          if flags.load_ema_checkpoint then Event.restoreEMA dir
          else Event.restoreRaw dir], none)) ∧
    Event.lookFor
        (if flags.load_ema_checkpoint then
          joinPath (effective_train_dir env flags) "ema_best_checkpoint"
        else joinPath (effective_train_dir env flags) "best_checkpoint")
      ∈ (Code.main env flags).1 := by
  constructor
  · intro req
    simp [initialize_model, hex]
  · unfold Code.main
    cases hema : flags.load_ema_checkpoint <;>
      (simp [h1, h2, hm, hn, hema, initialize_model, effective_train_dir];
       repeat' split
       all_goals simp)

/-- Witness: `c6_ema_switch_uniform` at the concrete show_examples
configuration. -/
theorem c6_witness :
    (∀ expect_exists : Bool,
      initialize_model envW flagsShow.load_ema_checkpoint "d" expect_exists =
        ([Event.lookFor "d",
          if flagsShow.load_ema_checkpoint then Event.restoreEMA "d"
          else Event.restoreRaw "d"], none)) ∧
    Event.lookFor
        (if flagsShow.load_ema_checkpoint then
          joinPath (effective_train_dir envW flagsShow) "ema_best_checkpoint"
        else joinPath (effective_train_dir envW flagsShow) "best_checkpoint")
      ∈ (Code.main envW flagsShow).1 :=
  c6_ema_switch_uniform envW flagsShow "d" rfl rfl rfl rfl (by decide)

/-- C7: in any mode other than official_eval, a configuration missing both
`experiment_name` and `train_dir` makes the controller fail immediately with
the configuration exception and an empty trace — before touching the
filesystem; and whenever `train_dir` is not explicitly given it defaults to
`EXPERIMENTS_DIR/{experiment_name}`, i.e. `experiments/` under the main
directory. -/
theorem c7_experiment_name_precondition (env : Env) (flags : Flags)
    (h1 : env.argvCount = 1) (h2 : env.pyMajor = 3)
    (hm : flags.mode ≠ "official_eval")
    (he : flags.experiment_name = "") (ht : flags.train_dir = "") :
    Code.main env flags =
      ([], some (Err.exception
        "You need to specify either --experiment_name or --train_dir")) ∧
    (∀ g : Flags, g.train_dir = "" →
      effective_train_dir env g =
        joinPath (joinPath env.mainDir "experiments") g.experiment_name) := by
  constructor
  · unfold Code.main
    simp [h1, h2, he, ht, hm]
  · intro g hg
    simp [effective_train_dir, EXPERIMENTS_DIR, hg]

/-- Witness: `c7_experiment_name_precondition` at the concrete train
configuration lacking both identifiers. -/
theorem c7_witness :
    Code.main envW flagsTrainMissing =
      ([], some (Err.exception
        "You need to specify either --experiment_name or --train_dir")) ∧
    (∀ g : Flags, g.train_dir = "" →
      effective_train_dir envW g =
        joinPath (joinPath envW.mainDir "experiments") g.experiment_name) :=
  c7_experiment_name_precondition envW flagsTrainMissing rfl rfl (by decide)
    rfl rfl

/-- C8: in official_eval mode with the paths set, every `single_ensemble`
value other than `"ensemble"` falls into the single branch, whose assertion
requires `"single"`; so any value outside both — in particular the default
empty string — aborts with the bare assertion failure rather than a
descriptive configuration exception, and only after the GloVe matrix, the
model and the two tag tables have been built. -/
theorem c8_default_single_ensemble_assertion (env : Env) (flags : Flags)
    (h1 : env.argvCount = 1) (h2 : env.pyMajor = 3)
    (hm : flags.mode = "official_eval")
    (hj : flags.json_in_path ≠ "") (hc : flags.ckpt_load_dir ≠ "")
    (hs1 : flags.single_ensemble ≠ "ensemble")
    (hs2 : flags.single_ensemble ≠ "single") :
    Code.main env flags =
      (mainHead env flags ++ tagTrace env flags, some Err.assertionError) ∧
    (∀ msg, (Code.main env flags).2 ≠ some (Err.exception msg)) ∧
    Event.getGlove (effective_glove_path env flags) flags.embedding_size ∈
      (Code.main env flags).1 ∧
    Event.buildModel ∈ (Code.main env flags).1 ∧
    Event.buildTagMaps (pos_tag_id_map env.posTagLines) ne_tag_id_map ∈
      (Code.main env flags).1 := by
  have h := main_eval_bad_single_ensemble env flags h1 h2 hm hj hc hs1 hs2
  refine ⟨h, ?_, ?_, ?_, ?_⟩ <;> rw [h] <;> simp [mainHead, tagTrace]

/-- Witness: `c8_default_single_ensemble_assertion` with `single_ensemble`
left at its default empty string. -/
theorem c8_witness :
    Code.main envW flagsDefaultSE =
      (mainHead envW flagsDefaultSE ++ tagTrace envW flagsDefaultSE,
       some Err.assertionError) ∧
    (∀ msg, (Code.main envW flagsDefaultSE).2 ≠ some (Err.exception msg)) ∧
    Event.getGlove (effective_glove_path envW flagsDefaultSE)
        flagsDefaultSE.embedding_size ∈ (Code.main envW flagsDefaultSE).1 ∧
    Event.buildModel ∈ (Code.main envW flagsDefaultSE).1 ∧
    Event.buildTagMaps (pos_tag_id_map envW.posTagLines) ne_tag_id_map ∈
      (Code.main envW flagsDefaultSE).1 :=
  c8_default_single_ensemble_assertion envW flagsDefaultSE rfl rfl rfl
    (by decide) (by decide) (by decide) (by decide)

/-- C9: in official_eval mode (either sub-mode) the part-of-speech table maps
each line of the tag file, with its final character stripped, to
line-index + 1 (stated under distinctness of the stripped tags, without which
no function can realize the claim), the named-entity table is built from the
fixed 13-tag vocabulary with id = index + 1, and both tables are built exactly
once, before any inference pass. -/
theorem c9_tag_tables (env : Env) (flags : Flags)
    (h1 : env.argvCount = 1) (h2 : env.pyMajor = 3)
    (hm : flags.mode = "official_eval")
    (hj : flags.json_in_path ≠ "") (hc : flags.ckpt_load_dir ≠ "")
    (hsub : flags.single_ensemble = "single" ∨ flags.single_ensemble = "ensemble")
    (hx : ∀ d ∈ checkpoint_dirs flags, env.ckptExists d = true)
    (hnodup : (env.posTagLines.map (fun l => l.dropRight 1)).Nodup) :
    (∀ i (hi : i < env.posTagLines.length),
      (pos_tag_id_map env.posTagLines).lookup
          ((env.posTagLines.get ⟨i, hi⟩).dropRight 1) = some (i + 1)) ∧
    all_NE_tag.length = 13 ∧
    (∀ i (hi : i < all_NE_tag.length),
      ne_tag_id_map.lookup (all_NE_tag.get ⟨i, hi⟩) = some (i + 1)) ∧
    (∃ tail, (Code.main env flags).1 =
        mainHead env flags ++ tagTrace env flags ++ tail ∧
      (∀ p n, Event.buildTagMaps p n ∉ mainHead env flags) ∧
      (∀ d r, Event.inference d r ∉ mainHead env flags ++ tagTrace env flags) ∧
      (∀ p n, Event.buildTagMaps p n ∉ tail)) := by
  have hkeys : (env.posTagLines.enum.map
        (fun p => (p.2.dropRight 1, p.1 + 1))).map Prod.fst =
      env.posTagLines.map (fun l => l.dropRight 1) := by
    rw [List.map_map]
    have hcomp : (Prod.fst ∘ fun p : ℕ × String => (p.2.dropRight 1, p.1 + 1)) =
        (fun l : String => l.dropRight 1) ∘ Prod.snd := rfl
    rw [hcomp, ← List.map_map, List.enum_map_snd]
  have hself : pos_tag_id_map env.posTagLines =
      env.posTagLines.enum.map (fun p => (p.2.dropRight 1, p.1 + 1)) := by
    rw [pos_tag_id_map]
    exact pyDict_eq_self_of_nodup _ (hkeys ▸ hnodup)
  refine ⟨?_, rfl, ?_, ?_⟩
  · intro i hi
    have hlen : i < (env.posTagLines.enum.map
        (fun p => (p.2.dropRight 1, p.1 + 1))).length := by
      simpa using hi
    have hget : (env.posTagLines.enum.map
        (fun p => (p.2.dropRight 1, p.1 + 1))).get ⟨i, hlen⟩ =
        ((env.posTagLines.get ⟨i, hi⟩).dropRight 1, i + 1) := by
      simp [List.get_eq_getElem, List.getElem_map, List.getElem_enum]
    have hlook := lookup_get_of_nodup _ (hkeys ▸ hnodup) i hlen
    rw [hget] at hlook
    rw [hself]
    exact hlook
  · have hne : ∀ j : Fin all_NE_tag.length,
        ne_tag_id_map.lookup (all_NE_tag.get j) = some (j.1 + 1) := by decide
    intro i hi
    exact hne ⟨i, hi⟩
  · rcases hsub with hs | hs
    · refine ⟨singleTailTrace env flags, ?_, ?_, ?_, ?_⟩
      · rw [main_single_trace env flags h1 h2 hm hj hc hs
          (hx _ (by
            rw [checkpoint_dirs, num_base_models]
            exact List.mem_map.mpr ⟨1, by decide,
              by rw [show ("ema_best_checkpoint_" ++ toString 1) =
                "ema_best_checkpoint_1" from by decide]; rfl⟩))]
      · intro p n
        simp [mainHead]
      · intro d r
        simp [mainHead, tagTrace]
      · intro p n
        cases hema : flags.load_ema_checkpoint <;>
          simp [singleTailTrace, hema]
    · refine ⟨(checkpoint_dirs flags).flatMap (passTrace env flags) ++
        finishTrace env flags, ?_, ?_, ?_, ?_⟩
      · rw [main_ensemble_trace env flags h1 h2 hm hj hc hs hx]
        simp
      · intro p n
        simp [mainHead]
      · intro d r
        simp [mainHead, tagTrace]
      · intro p n
        rw [List.mem_append]
        rintro (hmem | hmem)
        · rw [List.mem_flatMap] at hmem
          obtain ⟨a, _, hmem⟩ := hmem
          cases hema : flags.load_ema_checkpoint <;>
            simp [passTrace, hema] at hmem
        · simp [finishTrace] at hmem

/-- Witness: `c9_tag_tables` at the concrete ensemble configuration with a
two-line tag file. -/
theorem c9_witness :
    (∀ i (hi : i < envW.posTagLines.length),
      (pos_tag_id_map envW.posTagLines).lookup
          ((envW.posTagLines.get ⟨i, hi⟩).dropRight 1) = some (i + 1)) ∧
    all_NE_tag.length = 13 ∧
    (∀ i (hi : i < all_NE_tag.length),
      ne_tag_id_map.lookup (all_NE_tag.get ⟨i, hi⟩) = some (i + 1)) ∧
    (∃ tail, (Code.main envW flagsEval).1 =
        mainHead envW flagsEval ++ tagTrace envW flagsEval ++ tail ∧
      (∀ p n, Event.buildTagMaps p n ∉ mainHead envW flagsEval) ∧
      (∀ d r, Event.inference d r ∉ mainHead envW flagsEval ++ tagTrace envW flagsEval) ∧
      (∀ p n, Event.buildTagMaps p n ∉ tail)) :=
  c9_tag_tables envW flagsEval rfl rfl rfl (by decide) (by decide)
    (Or.inr rfl) (fun _ _ => rfl) (by decide)

/-- C10: in both evaluate sub-modes the final write is a single event at
`json_out_path` with Python's `ensure_ascii` disabled (non-ASCII preserved
unescaped) and UTF-8 encoding, whose payload is a dict with pairwise distinct
keys mapping exactly the input batch's uuids to answer strings, and the run
raises nothing. -/
theorem c10_output_json_serialization (env : Env) (flags : Flags)
    (h1 : env.argvCount = 1) (h2 : env.pyMajor = 3)
    (hm : flags.mode = "official_eval")
    (hj : flags.json_in_path ≠ "") (hc : flags.ckpt_load_dir ≠ "")
    (hsub : flags.single_ensemble = "single" ∨ flags.single_ensemble = "ensemble")
    (hx : ∀ d ∈ checkpoint_dirs flags, env.ckptExists d = true) :
    ∃ dict,
      Event.writeOutput flags.json_out_path false "utf-8" dict ∈
        (Code.main env flags).1 ∧
      (pyKeys dict).Nodup ∧
      (∀ u, u ∈ pyKeys dict ↔ u ∈ env.jsonData flags.json_in_path) ∧
      (Code.main env flags).2 = none := by
  rcases hsub with hs | hs
  · have hmem1 : env.ckptExists (singleCkptDir flags) = true := by
      apply hx
      rw [checkpoint_dirs, num_base_models, singleCkptDir]
      exact List.mem_map.mpr ⟨1, by decide,
        by rw [show ("ema_best_checkpoint_" ++ toString 1) =
          "ema_best_checkpoint_1" from by decide]⟩
    have htr := main_single_trace env flags h1 h2 hm hj hc hs hmem1
    refine ⟨generate_answers env (singleCkptDir flags)
      (env.jsonData flags.json_in_path), ?_, ?_, ?_, ?_⟩
    · rw [htr]
      simp [singleTailTrace]
    · exact pyKeys_pyDict_nodup _
    · intro u
      rw [generate_answers, mem_pyKeys_pyDict]
      simp
    · rw [htr]
  · have htr := main_ensemble_trace env flags h1 h2 hm hj hc hs hx
    refine ⟨generate_ensemble_answers (env.jsonData flags.json_in_path)
      (ensembleRecordSets env flags), ?_, ?_, ?_, ?_⟩
    · rw [htr]
      simp [finishTrace]
    · exact pyKeys_pyDict_nodup _
    · intro u
      rw [generate_ensemble_answers, mem_pyKeys_pyDict]
      simp
    · rw [htr]

/-- Witness: `c10_output_json_serialization` at the concrete single-mode
configuration. -/
theorem c10_witness :
    ∃ dict,
      Event.writeOutput flagsSingle.json_out_path false "utf-8" dict ∈
        (Code.main envW flagsSingle).1 ∧
      (pyKeys dict).Nodup ∧
      (∀ u, u ∈ pyKeys dict ↔ u ∈ envW.jsonData flagsSingle.json_in_path) ∧
      (Code.main envW flagsSingle).2 = none :=
  c10_output_json_serialization envW flagsSingle rfl rfl rfl (by decide)
    (by decide) (Or.inl rfl) (fun _ _ => rfl)
